import Mathlib

/-!
Verification of the WCAG contrast-checking core of QRCraftly
(`scripts/contrast_check.py` and `scripts/contrast_check_proposed.py`).

The four Python functions `hex_to_rgb`, `luminance`, `contrast_ratio` and
`blend_color`, together with the inline classification block of the scenario
loop, are embedded shallowly: Python integers become `ℤ`, Python floats become
`ℝ` (for luminance, which uses a real power `** 2.4`) or `ℚ` (for the blending
and classification arithmetic, which only uses field operations and
comparisons), and Python exceptions become `Option`.

The behaviour of the Python builtins used by the source is modelled first:
`int(s, 16)` (sign, optional `0x` prefix, underscores between digits,
surrounding whitespace), string slicing `s[i:j]`, `str.lstrip('#')`, and
truncation of a float by `int(·)` (toward zero).
-/

/-- Python ASCII whitespace characters stripped by `int(s, 16)`. -/
def pyWs (c : Char) : Bool :=
  decide (c.toNat = 32 ∨ c.toNat = 9 ∨ c.toNat = 10 ∨ c.toNat = 13 ∨
    c.toNat = 11 ∨ c.toNat = 12)

/-- Strip leading and trailing whitespace, as Python `int` does to its input. -/
def pyStrip (cs : List Char) : List Char :=
  ((cs.dropWhile pyWs).reverse.dropWhile pyWs).reverse

/-- Hexadecimal digit test: `0`-`9`, `a`-`f`, `A`-`F`. -/
def isHexDig (c : Char) : Bool :=
  decide ((48 ≤ c.toNat ∧ c.toNat ≤ 57) ∨ (97 ≤ c.toNat ∧ c.toNat ≤ 102) ∨
    (65 ≤ c.toNat ∧ c.toNat ≤ 70))

/-- Value of a hexadecimal digit character. -/
def hexDigitVal (c : Char) : ℤ :=
  if 48 ≤ c.toNat ∧ c.toNat ≤ 57 then (c.toNat : ℤ) - 48
  else if 97 ≤ c.toNat ∧ c.toNat ≤ 102 then (c.toNat : ℤ) - 87
  else if 65 ≤ c.toNat ∧ c.toNat ≤ 70 then (c.toNat : ℤ) - 55
  else 0

/-- Continuation of Python base-16 digit parsing after at least one digit has
been read: further digits, with a single underscore allowed between digits. -/
def hexTail (acc : ℤ) : List Char → Option ℤ
  | [] => some acc
  | c :: cs =>
    if c = '_' then
      match cs with
      | [] => none
      | d :: ds => if isHexDig d then hexTail (16 * acc + hexDigitVal d) ds else none
    else if isHexDig c then hexTail (16 * acc + hexDigitVal c) cs else none

/-- Python base-16 digit run without a `0x` prefix: one digit, then `hexTail`. -/
def intHexBody (cs : List Char) : Option ℤ :=
  match cs with
  | [] => none
  | c :: rest => if isHexDig c then hexTail (hexDigitVal c) rest else none

/-- Python `int(s, 16)` after sign handling: an optional `0x`/`0X` prefix
(which may be followed by a leading underscore), then digits. -/
def intHexCore (cs : List Char) : Option ℤ :=
  match cs with
  | [] => none
  | c :: rest =>
    if c = '0' then
      match rest with
      | [] => some 0
      | d :: ds =>
        if d = 'x' ∨ d = 'X' then (if ds = [] then none else hexTail 0 ds)
        else hexTail 0 rest
    else intHexBody (c :: rest)

/-- Model of Python `int(s, 16)`: strip whitespace, optional sign, digits. -/
def intHex (cs : List Char) : Option ℤ :=
  let t := pyStrip cs
  match t with
  | [] => none
  | c :: rest =>
    if c = '+' then intHexCore rest
    else if c = '-' then (intHexCore rest).map (fun z => -z)
    else intHexCore (c :: rest)

/-- Python slice `s[i:j]` on a character list (for `0 ≤ i ≤ j`): clamping,
never failing. -/
def pySlice (cs : List Char) (i j : ℕ) : List Char :=
  (cs.drop i).take (j - i)

/-- Python `str.lstrip('#')`: remove every leading `#`. -/
def lstripHash (cs : List Char) : List Char :=
  cs.dropWhile (fun c => c = '#')

/-- Python `int(x)` on a rational: truncation toward zero. -/
def pyInt (q : ℚ) : ℤ :=
  if 0 ≤ q then ⌊q⌋ else ⌈q⌉

/-- An RGB colour triple as produced by `hex_to_rgb`: three Python integers. -/
structure Color where
  r : ℤ
  g : ℤ
  b : ℤ
deriving DecidableEq, Repr

/-- A colour is valid when every channel is an 8-bit value. -/
def ColorValid (c : Color) : Prop :=
  0 ≤ c.r ∧ c.r ≤ 255 ∧ 0 ≤ c.g ∧ c.g ≤ 255 ∧ 0 ≤ c.b ∧ c.b ≤ 255

instance (c : Color) : Decidable (ColorValid c) := by
  unfold ColorValid; infer_instance

/-- The verdict computed by the scenario classification block: AA pass,
AAA pass, and the level string. -/
structure Verdict where
  passed : Bool
  aaa_passed : Bool
  level : String
deriving DecidableEq, Repr

namespace contrast_check

/-- Embedding of `hex_to_rgb` from `scripts/contrast_check.py`: strip leading `#`, then
`int(s[0:2], 16)`, `int(s[2:4], 16)`, `int(s[4:6], 16)`. -/
def hex_to_rgb (s : String) : Option Color :=
  let t := lstripHash s.data
  (intHex (pySlice t 0 2)).bind fun r =>
    (intHex (pySlice t 2 4)).bind fun g =>
      (intHex (pySlice t 4 6)).map fun b => Color.mk r g b

/-- The gamma correction applied per normalized channel by `luminance`:
`((x + 0.055) / 1.055) ** 2.4 if x > 0.03928 else x / 12.92`. -/
noncomputable def gammaCorrect (x : ℝ) : ℝ :=
  if x > 0.03928 then ((x + 0.055) / 1.055) ^ (2.4 : ℝ) else x / 12.92

/-- Embedding of `luminance` from `scripts/contrast_check.py`. -/
noncomputable def luminance (c : Color) : ℝ :=
  0.2126 * gammaCorrect ((c.r : ℝ) / 255) + 0.7152 * gammaCorrect ((c.g : ℝ) / 255) +
    0.0722 * gammaCorrect ((c.b : ℝ) / 255)

/-- Embedding of `contrast_ratio` from `scripts/contrast_check.py`. -/
noncomputable def contrast_ratio (c1 c2 : Color) : ℝ :=
  let lum1 := luminance c1
  let lum2 := luminance c2
  let brightest := max lum1 lum2
  let darkest := min lum1 lum2
  (brightest + 0.05) / (darkest + 0.05)

/-- Embedding of `blend_color` from `scripts/contrast_check.py`:
`int(fg * alpha + bg * (1 - alpha))` per channel. -/
def blend_color (fg bg : Color) (alpha : ℚ) : Color :=
  Color.mk
    (pyInt ((fg.r : ℚ) * alpha + (bg.r : ℚ) * (1 - alpha)))
    (pyInt ((fg.g : ℚ) * alpha + (bg.g : ℚ) * (1 - alpha)))
    (pyInt ((fg.b : ℚ) * alpha + (bg.b : ℚ) * (1 - alpha)))

/-- The inline classification block of the scenario loop
(`scripts/contrast_check.py`, lines 152-168): AA threshold 4.5 overridden to
3.0 for size `large`, AAA threshold 7.0 overridden to 4.5 for size `large`,
then the level string. -/
def classify (ratio : ℚ) (size : String) : Verdict :=
  let min_ratio : ℚ := 4.5
  let min_ratio : ℚ := if size = "large" then 3.0 else min_ratio
  let passed : Bool := decide (min_ratio ≤ ratio)
  let aaa_ratio : ℚ := 7.0
  let aaa_ratio : ℚ := if size = "large" then 4.5 else aaa_ratio
  let aaa_passed : Bool := decide (aaa_ratio ≤ ratio)
  let level : String := if aaa_passed then "AAA" else if passed then "AA" else "Fail"
  Verdict.mk passed aaa_passed level

end contrast_check

namespace contrast_check_proposed

/-- Embedding of `hex_to_rgb` from `scripts/contrast_check_proposed.py`. -/
def hex_to_rgb (s : String) : Option Color :=
  let t := lstripHash s.data
  (intHex (pySlice t 0 2)).bind fun r =>
    (intHex (pySlice t 2 4)).bind fun g =>
      (intHex (pySlice t 4 6)).map fun b => Color.mk r g b

/-- Per-channel gamma correction of `luminance` in
`scripts/contrast_check_proposed.py`. -/
noncomputable def gammaCorrect (x : ℝ) : ℝ :=
  if x > 0.03928 then ((x + 0.055) / 1.055) ^ (2.4 : ℝ) else x / 12.92

/-- Embedding of `luminance` from `scripts/contrast_check_proposed.py`. -/
noncomputable def luminance (c : Color) : ℝ :=
  0.2126 * gammaCorrect ((c.r : ℝ) / 255) + 0.7152 * gammaCorrect ((c.g : ℝ) / 255) +
    0.0722 * gammaCorrect ((c.b : ℝ) / 255)

/-- Embedding of `contrast_ratio` from `scripts/contrast_check_proposed.py`. -/
noncomputable def contrast_ratio (c1 c2 : Color) : ℝ :=
  let lum1 := luminance c1
  let lum2 := luminance c2
  let brightest := max lum1 lum2
  let darkest := min lum1 lum2
  (brightest + 0.05) / (darkest + 0.05)

/-- Embedding of `blend_color` from `scripts/contrast_check_proposed.py`. -/
def blend_color (fg bg : Color) (alpha : ℚ) : Color :=
  Color.mk
    (pyInt ((fg.r : ℚ) * alpha + (bg.r : ℚ) * (1 - alpha)))
    (pyInt ((fg.g : ℚ) * alpha + (bg.g : ℚ) * (1 - alpha)))
    (pyInt ((fg.b : ℚ) * alpha + (bg.b : ℚ) * (1 - alpha)))

end contrast_check_proposed

/-- The spec's gamma-correction function, written from the words of §4.3:
`f(c) = c / 12.92` if `c ≤ 0.03928`, else `f(c) = ((c + 0.055) / 1.055) ^ 2.4`. -/
noncomputable def fSpec (c : ℝ) : ℝ :=
  if c ≤ 0.03928 then c / 12.92 else ((c + 0.055) / 1.055) ^ (2.4 : ℝ)

/-- The spec's luminance formula, written from the words of §4.3:
`0.2126 * f(r) + 0.7152 * f(g) + 0.0722 * f(b)` on channels normalized
by 255. -/
noncomputable def luminanceSpec (c : Color) : ℝ :=
  0.2126 * fSpec ((c.r : ℝ) / 255) + 0.7152 * fSpec ((c.g : ℝ) / 255) +
    0.0722 * fSpec ((c.b : ℝ) / 255)

/-! ### Character and base-16 parsing lemmas -/

lemma isHexDig_range (c : Char) (h : isHexDig c = true) :
    (48 ≤ c.toNat ∧ c.toNat ≤ 57) ∨ (97 ≤ c.toNat ∧ c.toNat ≤ 102) ∨
      (65 ≤ c.toNat ∧ c.toNat ≤ 70) := by
  simpa [isHexDig] using h

lemma hexDig_ne_of_not (c x : Char) (hc : isHexDig c = true) (hx : isHexDig x = false) :
    c ≠ x := by
  intro e
  rw [e, hx] at hc
  exact Bool.noConfusion hc

lemma hexDig_not_ws (c : Char) (h : isHexDig c = true) : pyWs c = false := by
  have hr := isHexDig_range c h
  simp only [pyWs, decide_eq_false_iff_not]
  omega

lemma pyStrip_pair (a b : Char) (ha : pyWs a = false) (hb : pyWs b = false) :
    pyStrip [a, b] = [a, b] := by
  simp [pyStrip, List.dropWhile_cons, ha, hb]

lemma hexTail_single (b : Char) (acc : ℤ) (hb : isHexDig b = true) :
    hexTail acc [b] = some (16 * acc + hexDigitVal b) := by
  have hbu : b ≠ '_' := hexDig_ne_of_not b '_' hb (by decide)
  simp [hexTail, hbu, hb]

lemma intHexCore_pair (a b : Char) (ha : isHexDig a = true) (hb : isHexDig b = true) :
    intHexCore [a, b] = some (16 * hexDigitVal a + hexDigitVal b) := by
  have hbx : ¬(b = 'x' ∨ b = 'X') := by
    rintro (e | e) <;> (rw [e] at hb; exact absurd hb (by decide))
  by_cases h0 : a = '0'
  · subst h0
    have h0v : hexDigitVal '0' = 0 := by decide
    simp [intHexCore, hbx, hexTail_single b 0 hb, h0v]
  · simp [intHexCore, h0, intHexBody, ha, hexTail_single b (hexDigitVal a) hb]

lemma intHex_pair (a b : Char) (ha : isHexDig a = true) (hb : isHexDig b = true) :
    intHex [a, b] = some (16 * hexDigitVal a + hexDigitVal b) := by
  have hpa : a ≠ '+' := hexDig_ne_of_not a '+' ha (by decide)
  have hma : a ≠ '-' := hexDig_ne_of_not a '-' ha (by decide)
  simp only [intHex]
  rw [pyStrip_pair a b (hexDig_not_ws a ha) (hexDig_not_ws b hb)]
  simp [hpa, hma, intHexCore_pair a b ha hb]

lemma hex_to_rgb_six (c0 c1 c2 c3 c4 c5 : Char)
    (h0 : isHexDig c0 = true) (h1 : isHexDig c1 = true) (h2 : isHexDig c2 = true)
    (h3 : isHexDig c3 = true) (h4 : isHexDig c4 = true) (h5 : isHexDig c5 = true) :
    contrast_check.hex_to_rgb (String.mk ['#', c0, c1, c2, c3, c4, c5]) =
      some (Color.mk (16 * hexDigitVal c0 + hexDigitVal c1)
        (16 * hexDigitVal c2 + hexDigitVal c3) (16 * hexDigitVal c4 + hexDigitVal c5)) ∧
    contrast_check.hex_to_rgb (String.mk [c0, c1, c2, c3, c4, c5]) =
      some (Color.mk (16 * hexDigitVal c0 + hexDigitVal c1)
        (16 * hexDigitVal c2 + hexDigitVal c3) (16 * hexDigitVal c4 + hexDigitVal c5)) := by
  have hh : c0 ≠ '#' := hexDig_ne_of_not c0 '#' h0 (by decide)
  have hl1 : lstripHash (String.mk ['#', c0, c1, c2, c3, c4, c5]).data =
      [c0, c1, c2, c3, c4, c5] := by
    simp [lstripHash, List.dropWhile_cons, hh]
  have hl2 : lstripHash (String.mk [c0, c1, c2, c3, c4, c5]).data =
      [c0, c1, c2, c3, c4, c5] := by
    simp [lstripHash, List.dropWhile_cons, hh]
  constructor
  · simp only [contrast_check.hex_to_rgb]
    rw [hl1]
    rw [show pySlice [c0, c1, c2, c3, c4, c5] 0 2 = [c0, c1] from rfl]
    rw [show pySlice [c0, c1, c2, c3, c4, c5] 2 4 = [c2, c3] from rfl]
    rw [show pySlice [c0, c1, c2, c3, c4, c5] 4 6 = [c4, c5] from rfl]
    rw [intHex_pair c0 c1 h0 h1, intHex_pair c2 c3 h2 h3, intHex_pair c4 c5 h4 h5]
    rfl
  · simp only [contrast_check.hex_to_rgb]
    rw [hl2]
    rw [show pySlice [c0, c1, c2, c3, c4, c5] 0 2 = [c0, c1] from rfl]
    rw [show pySlice [c0, c1, c2, c3, c4, c5] 2 4 = [c2, c3] from rfl]
    rw [show pySlice [c0, c1, c2, c3, c4, c5] 4 6 = [c4, c5] from rfl]
    rw [intHex_pair c0 c1 h0 h1, intHex_pair c2 c3 h2 h3, intHex_pair c4 c5 h4 h5]
    rfl

/-! ### Gamma-correction and luminance bounds -/

lemma gammaCorrect_eq_fSpec (x : ℝ) : contrast_check.gammaCorrect x = fSpec x := by
  unfold contrast_check.gammaCorrect fSpec
  rcases le_or_lt x 0.03928 with h | h
  · rw [if_neg (not_lt.mpr h), if_pos h]
  · rw [if_pos h, if_neg (not_le.mpr h)]

lemma gammaCorrect_nonneg (x : ℝ) (hx : 0 ≤ x) : 0 ≤ contrast_check.gammaCorrect x := by
  unfold contrast_check.gammaCorrect
  split_ifs with h
  · exact Real.rpow_nonneg (div_nonneg (by linarith) (by norm_num)) _
  · positivity

lemma gammaCorrect_le_one (x : ℝ) (hx : x ≤ 1) : contrast_check.gammaCorrect x ≤ 1 := by
  unfold contrast_check.gammaCorrect
  split_ifs with h
  · apply Real.rpow_le_one (div_nonneg (by linarith) (by norm_num)) _ (by norm_num)
    rw [div_le_one (by norm_num)]
    linarith
  · push_neg at h
    rw [div_le_one (by norm_num)]
    linarith

lemma channel_norm_mem (z : ℤ) (h0 : 0 ≤ z) (h1 : z ≤ 255) :
    0 ≤ (z : ℝ) / 255 ∧ (z : ℝ) / 255 ≤ 1 := by
  constructor
  · apply div_nonneg _ (by norm_num)
    exact_mod_cast h0
  · rw [div_le_one (by norm_num)]
    exact_mod_cast h1

lemma luminance_nonneg (c : Color) (h : ColorValid c) : 0 ≤ contrast_check.luminance c := by
  obtain ⟨hr0, hr1, hg0, hg1, hb0, hb1⟩ := h
  have hr := channel_norm_mem c.r hr0 hr1
  have hg := channel_norm_mem c.g hg0 hg1
  have hb := channel_norm_mem c.b hb0 hb1
  have g1 := gammaCorrect_nonneg _ hr.1
  have g2 := gammaCorrect_nonneg _ hg.1
  have g3 := gammaCorrect_nonneg _ hb.1
  unfold contrast_check.luminance
  nlinarith

lemma luminance_le_one (c : Color) (h : ColorValid c) : contrast_check.luminance c ≤ 1 := by
  obtain ⟨hr0, hr1, hg0, hg1, hb0, hb1⟩ := h
  have hr := channel_norm_mem c.r hr0 hr1
  have hg := channel_norm_mem c.g hg0 hg1
  have hb := channel_norm_mem c.b hb0 hb1
  have g1 := gammaCorrect_le_one _ hr.2
  have g2 := gammaCorrect_le_one _ hg.2
  have g3 := gammaCorrect_le_one _ hb.2
  unfold contrast_check.luminance
  nlinarith

/-! ### Blending lemmas -/

lemma pyInt_of_nonneg (q : ℚ) (h : 0 ≤ q) : pyInt q = ⌊q⌋ := by
  unfold pyInt
  rw [if_pos h]

lemma pyInt_intCast (z : ℤ) : pyInt ((z : ℚ)) = z := by
  unfold pyInt
  split_ifs
  · exact Int.floor_intCast z
  · exact Int.ceil_intCast z

lemma blend_channel_nonneg (x y : ℤ) (α : ℚ) (hx0 : 0 ≤ x) (hy0 : 0 ≤ y)
    (h0 : 0 ≤ α) (h1 : α ≤ 1) : 0 ≤ (x : ℚ) * α + (y : ℚ) * (1 - α) := by
  have hx : (0 : ℚ) ≤ (x : ℚ) := by exact_mod_cast hx0
  have hy : (0 : ℚ) ≤ (y : ℚ) := by exact_mod_cast hy0
  have := mul_nonneg hx h0
  have := mul_nonneg hy (by linarith : (0 : ℚ) ≤ 1 - α)
  linarith

lemma blend_channel_le (x y : ℤ) (α : ℚ) (hx1 : x ≤ 255) (hy1 : y ≤ 255)
    (h0 : 0 ≤ α) (h1 : α ≤ 1) : (x : ℚ) * α + (y : ℚ) * (1 - α) ≤ 255 := by
  have hx : (x : ℚ) ≤ 255 := by exact_mod_cast hx1
  have hy : (y : ℚ) ≤ 255 := by exact_mod_cast hy1
  have h2 := mul_le_mul_of_nonneg_right hx h0
  have h3 := mul_le_mul_of_nonneg_right hy (by linarith : (0 : ℚ) ≤ 1 - α)
  nlinarith

lemma pyInt_channel_bounds (x y : ℤ) (α : ℚ) (hx0 : 0 ≤ x) (hx1 : x ≤ 255)
    (hy0 : 0 ≤ y) (hy1 : y ≤ 255) (h0 : 0 ≤ α) (h1 : α ≤ 1) :
    0 ≤ pyInt ((x : ℚ) * α + (y : ℚ) * (1 - α)) ∧
      pyInt ((x : ℚ) * α + (y : ℚ) * (1 - α)) ≤ 255 := by
  have hnn := blend_channel_nonneg x y α hx0 hy0 h0 h1
  have hle := blend_channel_le x y α hx1 hy1 h0 h1
  rw [pyInt_of_nonneg _ hnn]
  constructor
  · exact Int.le_floor.mpr (by exact_mod_cast hnn)
  · have hf : ⌊(x : ℚ) * α + (y : ℚ) * (1 - α)⌋ ≤ ⌊(255 : ℚ)⌋ := Int.floor_le_floor hle
    have h255 : ⌊(255 : ℚ)⌋ = 255 := by
      rw [show (255 : ℚ) = ((255 : ℤ) : ℚ) by norm_num, Int.floor_intCast]
    rwa [h255] at hf

/-! ### Claim theorems -/

/-- C1: `luminance` computes exactly the spec formula of §4.3: channels
normalized by 255, gamma-corrected piecewise with breakpoint 0.03928 (the
linear branch is taken at exactly 0.03928; the power branch is already taken
at 0.04, i.e. below the sRGB 0.04045), combined with coefficients 0.2126,
0.7152 and 0.0722. -/
theorem C1_luminance_formula :
    (∀ c : Color, contrast_check.luminance c = luminanceSpec c) ∧
    contrast_check.gammaCorrect 0.03928 = 0.03928 / 12.92 ∧
    fSpec 0.03928 = 0.03928 / 12.92 ∧
    contrast_check.gammaCorrect 0.04 = ((0.04 + 0.055) / 1.055) ^ (2.4 : ℝ) := by
  refine ⟨fun c => ?_, ?_, ?_, ?_⟩
  · unfold contrast_check.luminance luminanceSpec
    rw [gammaCorrect_eq_fSpec, gammaCorrect_eq_fSpec, gammaCorrect_eq_fSpec]
  · unfold contrast_check.gammaCorrect
    rw [if_neg (by norm_num)]
  · unfold fSpec
    rw [if_pos (by norm_num)]
  · unfold contrast_check.gammaCorrect
    rw [if_pos (by norm_num)]

/-- C2: for valid colours both luminances lie in [0, 1], the denominator of
the contrast ratio never vanishes (so the division raises no error), and the
contrast ratio lies in [1, 21]. -/
theorem C2_luminance_contrast_bounds (A B : Color) (hA : ColorValid A) (hB : ColorValid B) :
    (0 ≤ contrast_check.luminance A ∧ contrast_check.luminance A ≤ 1) ∧
    (0 ≤ contrast_check.luminance B ∧ contrast_check.luminance B ≤ 1) ∧
    min (contrast_check.luminance A) (contrast_check.luminance B) + 0.05 ≠ 0 ∧
    1 ≤ contrast_check.contrast_ratio A B ∧ contrast_check.contrast_ratio A B ≤ 21 := by
  have a0 := luminance_nonneg A hA
  have a1 := luminance_le_one A hA
  have b0 := luminance_nonneg B hB
  have b1 := luminance_le_one B hB
  have hm0 : 0 ≤ min (contrast_check.luminance A) (contrast_check.luminance B) :=
    le_min a0 b0
  have hM1 : max (contrast_check.luminance A) (contrast_check.luminance B) ≤ 1 :=
    max_le a1 b1
  have hmM : min (contrast_check.luminance A) (contrast_check.luminance B) ≤
      max (contrast_check.luminance A) (contrast_check.luminance B) := min_le_max
  have hden : (0 : ℝ) < min (contrast_check.luminance A) (contrast_check.luminance B) + 0.05 := by
    linarith
  have hcr : contrast_check.contrast_ratio A B =
      (max (contrast_check.luminance A) (contrast_check.luminance B) + 0.05) /
        (min (contrast_check.luminance A) (contrast_check.luminance B) + 0.05) := rfl
  refine ⟨⟨a0, a1⟩, ⟨b0, b1⟩, ne_of_gt hden, ?_, ?_⟩
  · rw [hcr, le_div_iff₀ hden]
    linarith
  · rw [hcr, div_le_iff₀ hden]
    linarith

/-- C2 witness: the bounds instantiated at black and white. -/
theorem C2_witness :
    ColorValid (Color.mk 0 0 0) ∧ ColorValid (Color.mk 255 255 255) ∧
    (1 ≤ contrast_check.contrast_ratio (Color.mk 0 0 0) (Color.mk 255 255 255) ∧
      contrast_check.contrast_ratio (Color.mk 0 0 0) (Color.mk 255 255 255) ≤ 21) := by
  refine ⟨by decide, by decide, ?_⟩
  have h := C2_luminance_contrast_bounds (Color.mk 0 0 0) (Color.mk 255 255 255)
    (by decide) (by decide)
  exact ⟨h.2.2.2.1, h.2.2.2.2⟩

/-- C8: the contrast ratio is symmetric in its arguments, and on a valid
colour against itself it is exactly 1. -/
theorem C8_symmetry_and_identity :
    (∀ A B : Color, contrast_check.contrast_ratio A B = contrast_check.contrast_ratio B A) ∧
    (∀ A : Color, ColorValid A → contrast_check.contrast_ratio A A = 1) := by
  constructor
  · intro A B
    simp only [contrast_check.contrast_ratio]
    rw [max_comm, min_comm]
  · intro A hA
    have h0 := luminance_nonneg A hA
    simp only [contrast_check.contrast_ratio]
    rw [max_self, min_self]
    exact div_self (by linarith)

/-- C8 witness: identity instantiated at a concrete valid colour. -/
theorem C8_witness :
    ColorValid (Color.mk 10 20 30) ∧
    contrast_check.contrast_ratio (Color.mk 10 20 30) (Color.mk 10 20 30) = 1 :=
  ⟨by decide, C8_symmetry_and_identity.2 (Color.mk 10 20 30) (by decide)⟩

/-- C3: for opacities in [0, 1] on valid colours, `blend_color` is exactly the
per-channel floor of `fg * α + bg * (1 - α)` (truncation coincides with floor
on non-negative values), and opacity 0 returns the base colour exactly while
opacity 1 returns the overlay exactly. -/
theorem C3_blend_floor :
    (∀ (fg bg : Color) (α : ℚ), ColorValid fg → ColorValid bg → 0 ≤ α → α ≤ 1 →
      contrast_check.blend_color fg bg α =
        Color.mk ⌊(fg.r : ℚ) * α + (bg.r : ℚ) * (1 - α)⌋
          ⌊(fg.g : ℚ) * α + (bg.g : ℚ) * (1 - α)⌋
          ⌊(fg.b : ℚ) * α + (bg.b : ℚ) * (1 - α)⌋) ∧
    (∀ fg bg : Color,
      contrast_check.blend_color fg bg 0 = bg ∧ contrast_check.blend_color fg bg 1 = fg) := by
  constructor
  · intro fg bg α hfg hbg h0 h1
    obtain ⟨hr0, hr1, hg0, hg1, hb0, hb1⟩ := hfg
    obtain ⟨hR0, hR1, hG0, hG1, hB0, hB1⟩ := hbg
    unfold contrast_check.blend_color
    rw [pyInt_of_nonneg _ (blend_channel_nonneg _ _ _ hr0 hR0 h0 h1),
      pyInt_of_nonneg _ (blend_channel_nonneg _ _ _ hg0 hG0 h0 h1),
      pyInt_of_nonneg _ (blend_channel_nonneg _ _ _ hb0 hB0 h0 h1)]
  · intro fg bg
    have hz : ∀ x y : ℤ, pyInt ((x : ℚ) * 0 + (y : ℚ) * (1 - 0)) = y := by
      intro x y
      rw [show (x : ℚ) * 0 + (y : ℚ) * (1 - 0) = ((y : ℤ) : ℚ) by ring,
        pyInt_intCast]
    have ho : ∀ x y : ℤ, pyInt ((x : ℚ) * 1 + (y : ℚ) * (1 - 1)) = x := by
      intro x y
      rw [show (x : ℚ) * 1 + (y : ℚ) * (1 - 1) = ((x : ℤ) : ℚ) by ring,
        pyInt_intCast]
    constructor
    · show Color.mk _ _ _ = bg
      rw [hz, hz, hz]
    · show Color.mk _ _ _ = fg
      rw [ho, ho, ho]

/-- C3 witness: a half-opacity blend of white over black truncates 127.5 down
to 127 on every channel. -/
theorem C3_witness :
    ColorValid (Color.mk 255 255 255) ∧ ColorValid (Color.mk 0 0 0) ∧
    (0 : ℚ) ≤ 1 / 2 ∧ (1 / 2 : ℚ) ≤ 1 ∧
    contrast_check.blend_color (Color.mk 255 255 255) (Color.mk 0 0 0) (1 / 2) =
      Color.mk 127 127 127 := by
  refine ⟨by decide, by decide, by norm_num, by norm_num, ?_⟩
  have h := C3_blend_floor.1 (Color.mk 255 255 255) (Color.mk 0 0 0) (1 / 2)
    (by decide) (by decide) (by norm_num) (by norm_num)
  rw [h]
  simp only [Color.mk.injEq]
  norm_num [Int.floor_eq_iff]

/-- C10: blending valid colours with an opacity in [0, 1] yields a colour
whose channels are again integers in [0, 255]. -/
theorem C10_blend_preserves_validity (fg bg : Color) (α : ℚ)
    (hfg : ColorValid fg) (hbg : ColorValid bg) (h0 : 0 ≤ α) (h1 : α ≤ 1) :
    ColorValid (contrast_check.blend_color fg bg α) := by
  obtain ⟨hr0, hr1, hg0, hg1, hb0, hb1⟩ := hfg
  obtain ⟨hR0, hR1, hG0, hG1, hB0, hB1⟩ := hbg
  have h1b := pyInt_channel_bounds fg.r bg.r α hr0 hr1 hR0 hR1 h0 h1
  have h2b := pyInt_channel_bounds fg.g bg.g α hg0 hg1 hG0 hG1 h0 h1
  have h3b := pyInt_channel_bounds fg.b bg.b α hb0 hb1 hB0 hB1 h0 h1
  exact ⟨h1b.1, h1b.2, h2b.1, h2b.2, h3b.1, h3b.2⟩

/-- C10 witness: the dark-mode teal overlay scenario of the script. -/
theorem C10_witness :
    ColorValid (Color.mk 19 78 74) ∧ ColorValid (Color.mk 30 41 59) ∧
    (0 : ℚ) ≤ 0.3 ∧ (0.3 : ℚ) ≤ 1 ∧
    ColorValid (contrast_check.blend_color (Color.mk 19 78 74) (Color.mk 30 41 59) 0.3) :=
  ⟨by decide, by decide, by norm_num, by norm_num,
    C10_blend_preserves_validity (Color.mk 19 78 74) (Color.mk 30 41 59) 0.3
      (by decide) (by decide) (by norm_num) (by norm_num)⟩

/-- C4: the classification block uses AA minimum 4.5 and AAA minimum 7.0 for
size `normal`, AA minimum 3.0 and AAA minimum 4.5 for size `large`, assigns
the level `AAA`, then `AA`, then `Fail` by inclusive comparisons, and the
boundary ratios 4.5/7.0 (normal) and 3.0 (large) pass their thresholds. -/
theorem C4_classifier_thresholds :
    (∀ r : ℚ, 0 ≤ r →
      ((contrast_check.classify r "normal").passed = true ↔ 4.5 ≤ r) ∧
      ((contrast_check.classify r "normal").aaa_passed = true ↔ 7.0 ≤ r) ∧
      (contrast_check.classify r "normal").level =
        (if 7.0 ≤ r then "AAA" else if 4.5 ≤ r then "AA" else "Fail")) ∧
    (∀ r : ℚ, 0 ≤ r →
      ((contrast_check.classify r "large").passed = true ↔ 3.0 ≤ r) ∧
      ((contrast_check.classify r "large").aaa_passed = true ↔ 4.5 ≤ r) ∧
      (contrast_check.classify r "large").level =
        (if 4.5 ≤ r then "AAA" else if 3.0 ≤ r then "AA" else "Fail")) ∧
    contrast_check.classify 4.5 "normal" = Verdict.mk true false "AA" ∧
    contrast_check.classify 7.0 "normal" = Verdict.mk true true "AAA" ∧
    contrast_check.classify 3.0 "large" = Verdict.mk true false "AA" := by
  refine ⟨fun r hr => ?_, fun r hr => ?_, ?_, ?_, ?_⟩
  · simp [contrast_check.classify]
  · simp [contrast_check.classify]
  · simp [contrast_check.classify]
    norm_num
  · simp [contrast_check.classify]
    norm_num
  · simp [contrast_check.classify]
    norm_num

/-- C4 witness: the thresholds instantiated at ratio 10. -/
theorem C4_witness :
    (0 : ℚ) ≤ 10 ∧
    (((contrast_check.classify 10 "normal").passed = true ↔ 4.5 ≤ (10 : ℚ)) ∧
      ((contrast_check.classify 10 "normal").aaa_passed = true ↔ 7.0 ≤ (10 : ℚ)) ∧
      (contrast_check.classify 10 "normal").level =
        (if 7.0 ≤ (10 : ℚ) then "AAA" else if 4.5 ≤ (10 : ℚ) then "AA" else "Fail")) :=
  ⟨by norm_num, C4_classifier_thresholds.1 10 (by norm_num)⟩

/-- C5 counterexample: the five-hex-digit string `"fffff"` is not six
hexadecimal characters after stripping `#`, yet the parser succeeds on it
(the slice `[4:6]` is the single character `f`), returning (255, 255, 15). -/
theorem C5_counterexample :
    contrast_check.hex_to_rgb "fffff" = some (Color.mk 255 255 15) := by
  decide

/-- C5 amended: the parser succeeds on every six-hex-digit string with an
optional `#`, and rejects `"#zzzzzz"`, `"#fff"` and `""`; but it does not fail
on every other string: it also accepts five hex digits (reading a one-digit
blue channel) and ignores everything after the sixth character. -/
theorem C5_amended_hex_parsing :
    (∀ c0 c1 c2 c3 c4 c5 : Char, isHexDig c0 = true → isHexDig c1 = true →
      isHexDig c2 = true → isHexDig c3 = true → isHexDig c4 = true → isHexDig c5 = true →
      contrast_check.hex_to_rgb (String.mk ['#', c0, c1, c2, c3, c4, c5]) =
        some (Color.mk (16 * hexDigitVal c0 + hexDigitVal c1)
          (16 * hexDigitVal c2 + hexDigitVal c3) (16 * hexDigitVal c4 + hexDigitVal c5)) ∧
      contrast_check.hex_to_rgb (String.mk [c0, c1, c2, c3, c4, c5]) =
        some (Color.mk (16 * hexDigitVal c0 + hexDigitVal c1)
          (16 * hexDigitVal c2 + hexDigitVal c3) (16 * hexDigitVal c4 + hexDigitVal c5))) ∧
    contrast_check.hex_to_rgb "#zzzzzz" = none ∧
    contrast_check.hex_to_rgb "#fff" = none ∧
    contrast_check.hex_to_rgb "" = none ∧
    contrast_check.hex_to_rgb "fffff" = some (Color.mk 255 255 15) ∧
    contrast_check.hex_to_rgb "ffffffzz" = some (Color.mk 255 255 255) :=
  ⟨hex_to_rgb_six, by decide, by decide, by decide, by decide, by decide⟩

/-- C5 witness: the generic six-hex-digit case instantiated at `"#a1b2c3"`. -/
theorem C5_witness :
    contrast_check.hex_to_rgb "#a1b2c3" = some (Color.mk 161 178 195) := by
  have h := (C5_amended_hex_parsing.1 'a' '1' 'b' '2' 'c' '3'
    (by decide) (by decide) (by decide) (by decide) (by decide) (by decide)).1
  exact h.trans (by decide)

/-- C6 counterexample: `blend_color` performs no opacity validation; at the
out-of-range opacity 2 on white over black it succeeds and returns
(510, 510, 510) instead of failing. -/
theorem C6_counterexample :
    contrast_check.blend_color (Color.mk 255 255 255) (Color.mk 0 0 0) 2 =
      Color.mk 510 510 510 := by
  simp only [contrast_check.blend_color, pyInt]
  norm_num

/-- C6 amended: the Compositor accepts every opacity, with no range check:
for any opacity ≥ 2 on white over black the result even violates the Color
invariant, and a negative opacity is likewise accepted. -/
theorem C6_amended_no_opacity_check :
    (∀ α : ℚ, 2 ≤ α →
      ¬ ColorValid (contrast_check.blend_color (Color.mk 255 255 255) (Color.mk 0 0 0) α)) ∧
    contrast_check.blend_color (Color.mk 0 0 0) (Color.mk 255 255 255) (-1) =
      Color.mk 510 510 510 := by
  constructor
  · intro α hα hv
    have h0 : (0 : ℚ) ≤ α := by linarith
    have hchan : (contrast_check.blend_color (Color.mk 255 255 255) (Color.mk 0 0 0) α).r =
        pyInt ((255 : ℚ) * α + (0 : ℚ) * (1 - α)) := by
      simp [contrast_check.blend_color]
    have hnn : (0 : ℚ) ≤ (255 : ℚ) * α + (0 : ℚ) * (1 - α) := by nlinarith
    have hge : (510 : ℤ) ≤ pyInt ((255 : ℚ) * α + (0 : ℚ) * (1 - α)) := by
      rw [pyInt_of_nonneg _ hnn]
      apply Int.le_floor.mpr
      push_cast
      nlinarith
    obtain ⟨-, hr255, -⟩ := hv
    rw [hchan] at hr255
    omega
  · simp only [contrast_check.blend_color, pyInt]
    norm_num

/-- C6 witness: the out-of-range acceptance instantiated at opacity 3. -/
theorem C6_witness :
    (2 : ℚ) ≤ 3 ∧
    ¬ ColorValid (contrast_check.blend_color (Color.mk 255 255 255) (Color.mk 0 0 0) 3) :=
  ⟨by norm_num, C6_amended_no_opacity_check.1 3 (by norm_num)⟩

/-- C7 counterexample: the classification block does not fail on the
unrecognized size category `"huge"`; it silently applies the `normal`
thresholds and produces a definite verdict. -/
theorem C7_counterexample :
    contrast_check.classify 5 "huge" = Verdict.mk true false "AA" := by
  simp [contrast_check.classify]
  norm_num

/-- C7 amended: every size category other than `large` — including
unrecognized ones — is classified exactly like `normal`; the classifier never
fails and always produces one of the three levels. -/
theorem C7_amended_nonlarge_as_normal :
    (∀ (r : ℚ) (size : String), size ≠ "large" →
      contrast_check.classify r size = contrast_check.classify r "normal") ∧
    (∀ (r : ℚ) (size : String),
      (contrast_check.classify r size).level = "AAA" ∨
      (contrast_check.classify r size).level = "AA" ∨
      (contrast_check.classify r size).level = "Fail") := by
  constructor
  · intro r size h
    simp [contrast_check.classify, h]
  · intro r size
    simp only [contrast_check.classify]
    split_ifs <;> simp

/-- C7 witness: the amended behaviour instantiated at the unrecognized size
category `"huge"`. -/
theorem C7_witness :
    "huge" ≠ "large" ∧
    contrast_check.classify 5 "huge" = contrast_check.classify 5 "normal" :=
  ⟨by decide, C7_amended_nonlarge_as_normal.1 5 "huge" (by decide)⟩

/-- C9: the four core functions of `contrast_check.py` and their namesakes in
`contrast_check_proposed.py` are extensionally equal. -/
theorem C9_proposed_equivalence :
    (∀ s : String, contrast_check.hex_to_rgb s = contrast_check_proposed.hex_to_rgb s) ∧
    (∀ c : Color, contrast_check.luminance c = contrast_check_proposed.luminance c) ∧
    (∀ A B : Color,
      contrast_check.contrast_ratio A B = contrast_check_proposed.contrast_ratio A B) ∧
    (∀ (fg bg : Color) (α : ℚ),
      contrast_check.blend_color fg bg α = contrast_check_proposed.blend_color fg bg α) :=
  ⟨fun _ => rfl, fun _ => rfl, fun _ _ => rfl, fun _ _ _ => rfl⟩
